import Mathlib

/-!
Shallow embedding of `src/provider.ts` (`BundlerJsonRpcProvider`): a JSON-RPC
client that routes five bundler-specific methods to an optional secondary
("bundler") transport and sends everything else as an HTTP POST to the primary
endpoint, with JavaScript semantics (truthiness, template-literal rendering,
`JSON.stringify`) modelled explicitly.
-/

namespace BundlerRpc

/-- A JSON value, as carried in JSON-RPC request params and response bodies.
Numbers are modelled as integers (every number appearing in this protocol —
ids, error codes, statuses — is integral). -/
inductive Json where
  | null : Json
  | bool : Bool → Json
  | num : Int → Json
  | str : String → Json
  | arr : List Json → Json
  | obj : List (String × Json) → Json

/-- Property lookup on an object field list: first binding wins (JS object
keys are unique, so this matches property access). -/
def lookupField : List (String × Json) → String → Option Json
  | [], _ => none
  | (k, v) :: fs, key => if k = key then some v else lookupField fs key

/-- JavaScript property access `x.key`: defined on objects, `undefined`
(`none`) on every other value (null, numbers, strings, arrays carry none of
the properties this code reads). -/
def Json.getField : Json → String → Option Json
  | .obj fs, key => lookupField fs key
  | _, _ => none

/-- JavaScript truthiness of a JSON value: `null`, `false`, `0` and `""` are
falsy; every other value (including `[]` and an empty object) is truthy. -/
def jsTruthy : Json → Bool
  | .null => false
  | .bool b => b
  | .num n => n != 0
  | .str s => !(s = "")
  | .arr _ => true
  | .obj _ => true

mutual
/-- Template-literal rendering of a JSON value (JavaScript `String(x)`):
strings render bare, arrays join their elements with commas (null rendering
empty inside a join), objects render as the object placeholder. -/
def jsToString : Json → String
  | .null => "null"
  | .bool b => cond b "true" "false"
  | .num n => toString n
  | .str s => s
  | .arr xs => jsArrToString xs
  | .obj _ => "[object Object]"
/-- Array join with "," as in `Array.prototype.toString`: `null` elements
become the empty string. -/
def jsArrToString : List Json → String
  | [] => ""
  | [.null] => ""
  | [x] => jsToString x
  | .null :: xs => "," ++ jsArrToString xs
  | x :: xs => jsToString x ++ "," ++ jsArrToString xs
end

/-- Template-literal rendering of a possibly-undefined value: `undefined`
renders as the literal word. -/
def jsValToString : Option Json → String
  | none => "undefined"
  | some j => jsToString j

/-- Lower-case hex digit for a value below 16. -/
def hexDigit (n : Nat) : String :=
  String.singleton (Nat.digitChar n)

/-- JSON string escaping of one character, as `JSON.stringify` performs it:
quote, backslash, the named control escapes, and `\u00XX` for the remaining
control characters. -/
def escChar (c : Char) : String :=
  if c = '"' then "\\\""
  else if c = '\\' then "\\\\"
  else if c = '\n' then "\\n"
  else if c = '\r' then "\\r"
  else if c = '\t' then "\\t"
  else if c = '\x08' then "\\b"
  else if c = '\x0c' then "\\f"
  else if c.toNat < 32 then "\\u00" ++ hexDigit (c.toNat / 16) ++ hexDigit (c.toNat % 16)
  else String.singleton c

/-- JSON escaping of a whole string. -/
def jsonEscape (s : String) : String :=
  String.join (s.data.map escChar)

mutual
/-- Serialization of a JSON value, as `JSON.stringify` renders it (no
whitespace, object fields in order). -/
def Json.stringify : Json → String
  | .null => "null"
  | .bool b => cond b "true" "false"
  | .num n => toString n
  | .str s => "\"" ++ jsonEscape s ++ "\""
  | .arr xs => "[" ++ stringifyItems xs ++ "]"
  | .obj fs => "\x7b" ++ stringifyFields fs ++ "\x7d"
/-- Comma-separated serialization of array items. -/
def stringifyItems : List Json → String
  | [] => ""
  | [x] => Json.stringify x
  | x :: xs => Json.stringify x ++ "," ++ stringifyItems xs
/-- Comma-separated serialization of object fields as quoted key, colon,
value. -/
def stringifyFields : List (String × Json) → String
  | [] => ""
  | [(k, v)] => "\"" ++ jsonEscape k ++ "\":" ++ Json.stringify v
  | (k, v) :: fs => "\"" ++ jsonEscape k ++ "\":" ++ Json.stringify v ++ "," ++ stringifyFields fs
end

/-- An HTTP request as assembled in `_send`: verb, target URL, header list and
serialized body (the `request` object handed to axios). -/
structure Request where
  httpMethod : String
  url : String
  headers : List (String × String)
  data : String

/-- Outcome of one axios round trip, as observed by `_send`'s try/catch:
a 2xx response with a parsed body; an axios-raised failure (carrying the
optional response status and body that `error.response?.` reads, and the
error's own `message`); or a non-axios throwable whose template-literal
rendering is the given string. -/
inductive HttpResult where
  | ok : Json → HttpResult
  | httpErr : Option Nat → Option Json → String → HttpResult
  | otherErr : String → HttpResult

/-- A secondary (bundler) transport: in the source this is an
`ethers.providers.JsonRpcProvider` constructed from the bundler URL; the only
parts of it this module touches are the URL it was bound to and its `send`. -/
structure JsonRpcProviderRef where
  url : String

/-- The client state of `BundlerJsonRpcProvider`: primary endpoint URL (held
by the base provider's `connection`), the configured User-Agent, and the
optional bundler provider. -/
structure Provider where
  url : String
  userAgent : String
  bundlerRpc : Option JsonRpcProviderRef

/-- The fixed `bundlerMethods` set. -/
def bundlerMethods : List String :=
  ["eth_sendUserOperation",
   "eth_estimateUserOperationGas",
   "eth_getUserOperationByHash",
   "eth_getUserOperationReceipt",
   "eth_supportedEntryPoints"]

/-- The constructor: binds the primary RPC URL and the User-Agent; no bundler
transport exists yet. -/
def mkProvider (rpcUrl : String) (userAgent : String) : Provider :=
  ⟨rpcUrl, userAgent, none⟩

/-- The `setBundlerRpc` setter: when the argument is truthy (a non-empty
string) it installs a fresh bundler provider bound to that URL; otherwise it
changes nothing. The source returns `this`, so the returned provider is the
client's state after the call. -/
def setBundlerRpc (p : Provider) (bundlerRpc : Option String) : Provider :=
  match bundlerRpc with
  | some s => if s = "" then p else { p with bundlerRpc := some ⟨s⟩ }
  | none => p

/-- The external world one `send` call runs against: the behavior of the
primary HTTP transport (axios), the behavior of every bundler provider's
`send` (keyed by the URL it was constructed from), and the current clock
reading `(new Date()).getTime()` used as the request id. A JS `undefined`
result is `Except.ok none`. -/
structure World where
  http : Request → HttpResult
  bundler : String → String → List Json → Except String (Option Json)
  now : Int

/-- The request object `_send` builds: an HTTP POST to the primary URL with
the Content-Type and User-Agent headers, whose body serializes
`method`, `params`, the time-based `id` and the `jsonrpc` marker, in that
field order. -/
def primaryRequest (p : Provider) (now : Int) (method : String) (params : List Json) : Request :=
  { httpMethod := "POST"
    url := p.url
    headers := [("Content-Type", "application/json"), ("User-Agent", p.userAgent)]
    data := Json.stringify (Json.obj
      [("method", Json.str method),
       ("params", Json.arr params),
       ("id", Json.num now),
       ("jsonrpc", Json.str "2.0")]) }

/-- The message of the `RPC Error` thrown on a truthy `response.data.error`:
renders `error.message` and `error.code` via template literals. -/
def rpcErrorMsg (e : Json) : String :=
  "RPC Error: " ++ (jsValToString (e.getField "message") ++
    (" (Code: " ++ (jsValToString (e.getField "code") ++ ")")))

/-- Rendering of `error.response?.status || "Unknown Status Code"`: absent or
falsy (zero) status falls back to the placeholder. -/
def statusDisplay : Option Nat → String
  | some n => if n = 0 then "Unknown Status Code" else toString n
  | none => "Unknown Status Code"

/-- Evaluation of `error.response?.data || {}`: an absent or falsy body is
replaced by an empty object. -/
def responseDataOf : Option Json → Json
  | some d => if jsTruthy d then d else Json.obj []
  | none => Json.obj []

/-- Evaluation of `responseData.error?.message || error.message`: the server
message when present and truthy (rendered by the template literal), otherwise
the axios error's own message. -/
def errorMessageOf (responseData : Json) (axMsg : String) : String :=
  match (responseData.getField "error").bind (fun e => Json.getField e "message") with
  | some m => if jsTruthy m then jsToString m else axMsg
  | none => axMsg

/-- The message of the error thrown in the axios-specific catch branch:
status, best-available error message, the failed call's method and stringified
params, and the stringified (defaulted) response body. -/
def httpErrMsg (method : String) (params : List Json) (status : Option Nat)
    (rdata : Option Json) (axMsg : String) : String :=
  "HTTP " ++ (statusDisplay status ++ (" - RPC request failed: " ++
    (errorMessageOf (responseDataOf rdata) axMsg ++ ("\nRequest Method: " ++
      (method ++ ("\nRequest Params: " ++
        (Json.stringify (Json.arr params) ++ ("\nResponse Data: " ++
          Json.stringify (responseDataOf rdata)))))))))

/-- The response handling of `_send`'s try/catch. On a 2xx body: a truthy
`error` field raises the `RPC Error` — which, thrown inside the `try`, is
caught by the same `catch`, fails `axios.isAxiosError`, and is re-wrapped by
the general fallback (so its surfaced rendering is the `Error`'s
`String(error)` form inside the fallback message); otherwise the call
resolves to `response.data.result` (possibly `undefined`). An axios failure
raises the diagnostic HTTP message; any other throwable is wrapped
generically. -/
def processResponse (method : String) (params : List Json) (r : HttpResult) :
    Except String (Option Json) :=
  match r with
  | .ok data =>
    match data.getField "error" with
    | some e =>
      if jsTruthy e then
        .error ("Unexpected error during RPC request: " ++ ("Error: " ++ rpcErrorMsg e))
      else
        .ok (data.getField "result")
    | none => .ok (data.getField "result")
  | .httpErr status rdata axMsg => .error (httpErrMsg method params status rdata axMsg)
  | .otherErr msg => .error ("Unexpected error during RPC request: " ++ msg)

/-- The `_send` path: build the primary request, run it against the HTTP
transport, and normalize the outcome. The request that was issued is
returned alongside, so theorems can speak about the wire traffic. -/
def primarySend (p : Provider) (w : World) (method : String) (params : List Json) :
    Except String (Option Json) × Option Request :=
  (processResponse method params (w.http (primaryRequest p w.now method params)),
   some (primaryRequest p w.now method params))

/-- The public `send`, with its wire trace: when a bundler provider is set and
the method is in `bundlerMethods`, the call is forwarded verbatim to the
bundler provider's `send` and no primary request exists (trace `none`);
otherwise `_send` runs and the trace records the single primary request. -/
def sendTrace (p : Provider) (w : World) (method : String) (params : List Json) :
    Except String (Option Json) × Option Request :=
  match p.bundlerRpc with
  | some b =>
    if bundlerMethods.contains method then
      (w.bundler b.url method params, none)
    else
      primarySend p w method params
  | none => primarySend p w method params

/-- The public `send`: the outcome component of `sendTrace`. -/
def send (p : Provider) (w : World) (method : String) (params : List Json) :
    Except String (Option Json) :=
  (sendTrace p w method params).1

/-! Helper notions and lemmas shared by the theorems below. -/

/-- Substring containment, stated over the underlying character lists. -/
def strContains (s sub : String) : Prop :=
  ∃ l r, s.data = l ++ (sub.data ++ r)

theorem data_append (a b : String) : (a ++ b).data = a.data ++ b.data := by
  cases a; cases b; rfl

theorem sendTrace_routed (p : Provider) (w : World) (b : JsonRpcProviderRef)
    (method : String) (params : List Json) (hb : p.bundlerRpc = some b)
    (hm : bundlerMethods.contains method = true) :
    sendTrace p w method params = (w.bundler b.url method params, none) := by
  have hm' : method ∈ bundlerMethods := by simpa using hm
  simp [sendTrace, hb, hm']

theorem sendTrace_primary (p : Provider) (w : World) (method : String) (params : List Json)
    (h : p.bundlerRpc = none ∨ bundlerMethods.contains method = false) :
    sendTrace p w method params = primarySend p w method params := by
  rcases h with h | h
  · simp [sendTrace, h]
  · have h' : method ∉ bundlerMethods := by simpa using h
    cases hb : p.bundlerRpc <;> simp [sendTrace, hb, h']

theorem setBundlerRpc_keeps_some (p : Provider) (u : Option String)
    (h : p.bundlerRpc.isSome = true) : ((setBundlerRpc p u).bundlerRpc).isSome = true := by
  cases u with
  | none => simpa [setBundlerRpc] using h
  | some s =>
    by_cases hs : s = ""
    · simpa [setBundlerRpc, hs] using h
    · simp [setBundlerRpc, hs]

theorem foldl_setBundlerRpc_isSome (vs : List (Option String)) (p : Provider)
    (h : p.bundlerRpc.isSome = true) :
    ((vs.foldl setBundlerRpc p).bundlerRpc).isSome = true := by
  induction vs generalizing p with
  | nil => simpa using h
  | cons v vs ih => exact ih _ (setBundlerRpc_keeps_some p v h)

theorem foldl_setBundlerRpc_empty (us : List (Option String)) (p : Provider)
    (hus : ∀ u ∈ us, u = none ∨ u = some "") : us.foldl setBundlerRpc p = p := by
  induction us generalizing p with
  | nil => rfl
  | cons u us ih =>
    have hu := hus u (by simp)
    have hstep : setBundlerRpc p u = p := by
      rcases hu with h | h <;> simp [setBundlerRpc, h]
    rw [List.foldl_cons, hstep]
    exact ih p (fun v hv => hus v (by simp [hv]))

/-! Concrete fixtures used by witnesses and counterexamples. -/

/-- A freshly constructed client pointed at a primary node. -/
def sampleProvider : Provider := mkProvider "http://node.example" "UA/1.0"

/-- The sample client after `setBundlerRpc` with a non-empty bundler URL. -/
def sampleBundled : Provider := setBundlerRpc sampleProvider (some "http://bundler.example")

/-- A world whose primary transport answers every request with a plain
result envelope, and whose bundler providers echo the method name. -/
def wResult : World :=
  { http := fun _ => HttpResult.ok (Json.obj [("result", Json.num 42)])
    bundler := fun _ method _ => Except.ok (some (Json.str method))
    now := 1700000000000 }

/-- A world whose primary transport answers with a structured RPC error. -/
def wRpcErr : World :=
  { http := fun _ => HttpResult.ok (Json.obj
      [("error", Json.obj [("message", Json.str "boom"), ("code", Json.num (-32000))])])
    bundler := fun _ _ _ => Except.ok none
    now := 0 }

/-- A world whose primary transport answers with a body holding a null
error field next to a result field. -/
def wBothNull : World :=
  { http := fun _ => HttpResult.ok (Json.obj
      [("error", Json.null), ("result", Json.num 42)])
    bundler := fun _ _ _ => Except.ok none
    now := 0 }

/-- A world whose primary transport answers with a body holding a truthy
error object next to a result field. -/
def wBothTruthy : World :=
  { http := fun _ => HttpResult.ok (Json.obj
      [("error", Json.obj [("message", Json.str "bad"), ("code", Json.num 3)]),
       ("result", Json.num 7)])
    bundler := fun _ _ _ => Except.ok none
    now := 0 }

/-- A partial response body delivered alongside an HTTP 500. -/
def body500 : Json :=
  Json.obj [("error", Json.obj [("message", Json.str "server down")])]

/-- A world whose primary transport fails with HTTP 500 and a partial error
body, as axios surfaces it. -/
def wHttp500 : World :=
  { http := fun _ => HttpResult.httpErr (some 500) (some body500)
      "Request failed with status code 500"
    bundler := fun _ _ _ => Except.ok none
    now := 0 }

/-- A world whose primary transport fails with a non-axios throwable. -/
def wOther : World :=
  { http := fun _ => HttpResult.otherErr "Error: socket hang up"
    bundler := fun _ _ _ => Except.ok none
    now := 0 }

/-! Claim theorems. -/

/-- C1: for every method name in the routed-method set, when a bundler
transport is configured, `send` forwards the call verbatim to that
transport's `send` — same method, same params, result returned unchanged —
and performs no primary-path HTTP request (the wire trace is empty). -/
theorem routed_method_goes_only_to_bundler (p : Provider) (w : World)
    (b : JsonRpcProviderRef) (method : String) (params : List Json)
    (hb : p.bundlerRpc = some b) (hm : bundlerMethods.contains method = true) :
    send p w method params = w.bundler b.url method params ∧
      (sendTrace p w method params).2 = none := by
  have h := sendTrace_routed p w b method params hb hm
  exact ⟨by simp [send, h], by simp [h]⟩

/-- C1 witness: `eth_sendUserOperation` on a client with a configured
bundler transport is answered by the bundler and leaves no primary request. -/
theorem routed_method_goes_only_to_bundler_witness :
    sampleBundled.bundlerRpc = some ⟨"http://bundler.example"⟩ ∧
      bundlerMethods.contains "eth_sendUserOperation" = true ∧
      (send sampleBundled wResult "eth_sendUserOperation" [Json.num 7] =
          wResult.bundler "http://bundler.example" "eth_sendUserOperation" [Json.num 7] ∧
        (sendTrace sampleBundled wResult "eth_sendUserOperation" [Json.num 7]).2 = none) :=
  ⟨rfl, by decide,
    routed_method_goes_only_to_bundler sampleBundled wResult ⟨"http://bundler.example"⟩
      "eth_sendUserOperation" [Json.num 7] rfl (by decide)⟩

/-- C2: membership in the routed-method set holds exactly for the five
bundler methods and no other name. -/
theorem bundlerMethods_exactly_five (m : String) :
    m ∈ bundlerMethods ↔
      (m = "eth_sendUserOperation" ∨ m = "eth_estimateUserOperationGas" ∨
       m = "eth_getUserOperationByHash" ∨ m = "eth_getUserOperationReceipt" ∨
       m = "eth_supportedEntryPoints") := by
  simp [bundlerMethods]

/-- C5: for every method outside the routed set, and for every method when
no bundler transport is configured, `send` runs the primary path: the wire
trace holds exactly the primary request, an HTTP POST, and the outcome is
the normalization of the primary transport's answer to it. -/
theorem unrouted_method_uses_primary_post (p : Provider) (w : World)
    (method : String) (params : List Json)
    (h : p.bundlerRpc = none ∨ bundlerMethods.contains method = false) :
    sendTrace p w method params =
      (processResponse method params (w.http (primaryRequest p w.now method params)),
       some (primaryRequest p w.now method params)) ∧
      (primaryRequest p w.now method params).httpMethod = "POST" :=
  ⟨sendTrace_primary p w method params h, rfl⟩

/-- C5 witness: `eth_sendUserOperationX`, a proper superstring of a routed
name, is not routed even with a bundler configured — membership is exact,
with no prefix matching — and the call goes out as a primary POST. -/
theorem unrouted_method_uses_primary_post_witness :
    (sampleBundled.bundlerRpc = none ∨
      bundlerMethods.contains "eth_sendUserOperationX" = false) ∧
      (sendTrace sampleBundled wResult "eth_sendUserOperationX" [] =
        (processResponse "eth_sendUserOperationX" []
          (wResult.http (primaryRequest sampleBundled wResult.now "eth_sendUserOperationX" [])),
         some (primaryRequest sampleBundled wResult.now "eth_sendUserOperationX" [])) ∧
        (primaryRequest sampleBundled wResult.now "eth_sendUserOperationX" []).httpMethod =
          "POST") :=
  ⟨Or.inr (by decide),
    unrouted_method_uses_primary_post sampleBundled wResult "eth_sendUserOperationX" []
      (Or.inr (by decide))⟩

/-- C6: every primary-path request is an HTTP POST to the primary endpoint,
carries the Content-Type header and the User-Agent header with the exact
configured value, and its body is the JSON serialization of the envelope
with the method, the params, the time-based numeric id and the jsonrpc 2.0
marker. -/
theorem primary_request_wire_format (p : Provider) (w : World)
    (method : String) (params : List Json)
    (h : p.bundlerRpc = none ∨ bundlerMethods.contains method = false) :
    (sendTrace p w method params).2 = some (primaryRequest p w.now method params) ∧
      (primaryRequest p w.now method params).httpMethod = "POST" ∧
      (primaryRequest p w.now method params).url = p.url ∧
      (primaryRequest p w.now method params).headers =
        [("Content-Type", "application/json"), ("User-Agent", p.userAgent)] ∧
      (primaryRequest p w.now method params).data =
        Json.stringify (Json.obj
          [("method", Json.str method), ("params", Json.arr params),
           ("id", Json.num w.now), ("jsonrpc", Json.str "2.0")]) := by
  refine ⟨?_, rfl, rfl, rfl, rfl⟩
  rw [sendTrace_primary p w method params h]
  rfl

/-- C6 witness: the concrete request for `eth_chainId` against the sample
client shows the POST verb, URL, both headers with the configured
User-Agent, and the serialized envelope body. -/
theorem primary_request_wire_format_witness :
    (sampleProvider.bundlerRpc = none ∨ bundlerMethods.contains "eth_chainId" = false) ∧
      ((sendTrace sampleProvider wResult "eth_chainId" [Json.str "latest"]).2 =
        some (primaryRequest sampleProvider wResult.now "eth_chainId" [Json.str "latest"]) ∧
        (primaryRequest sampleProvider wResult.now "eth_chainId" [Json.str "latest"]).httpMethod =
          "POST" ∧
        (primaryRequest sampleProvider wResult.now "eth_chainId" [Json.str "latest"]).url =
          sampleProvider.url ∧
        (primaryRequest sampleProvider wResult.now "eth_chainId" [Json.str "latest"]).headers =
          [("Content-Type", "application/json"), ("User-Agent", sampleProvider.userAgent)] ∧
        (primaryRequest sampleProvider wResult.now "eth_chainId" [Json.str "latest"]).data =
          Json.stringify (Json.obj
            [("method", Json.str "eth_chainId"),
             ("params", Json.arr [Json.str "latest"]),
             ("id", Json.num wResult.now),
             ("jsonrpc", Json.str "2.0")])) :=
  ⟨Or.inl rfl,
    primary_request_wire_format sampleProvider wResult "eth_chainId" [Json.str "latest"]
      (Or.inl rfl)⟩

/-- C8: `setBundlerRpc` with an undefined or empty argument returns the
client unchanged — afterwards the state is exactly what it was, and on a
client that never had a bundler transport every send still takes the
primary path. -/
theorem setBundlerRpc_empty_identity (p : Provider) (u : Option String)
    (h : u = none ∨ u = some "") :
    setBundlerRpc p u = p ∧
      (p.bundlerRpc = none → ∀ w method params,
        (sendTrace (setBundlerRpc p u) w method params).2 =
          some (primaryRequest p w.now method params)) := by
  have hid : setBundlerRpc p u = p := by
    rcases h with h | h <;> simp [setBundlerRpc, h]
  refine ⟨hid, fun hnone w method params => ?_⟩
  rw [hid, sendTrace_primary p w method params (Or.inl hnone)]
  rfl

/-- C8 witness: `setBundlerRpc` with the empty string on the fresh sample
client leaves it untouched and its sends on the primary path. -/
theorem setBundlerRpc_empty_identity_witness :
    (some "" = (none : Option String) ∨ some "" = some "") ∧
      (setBundlerRpc sampleProvider (some "") = sampleProvider ∧
        (sampleProvider.bundlerRpc = none → ∀ w method params,
          (sendTrace (setBundlerRpc sampleProvider (some "")) w method params).2 =
            some (primaryRequest sampleProvider w.now method params))) :=
  ⟨Or.inr rfl, setBundlerRpc_empty_identity sampleProvider (some "") (Or.inr rfl)⟩

/-- C9: once a bundler transport is configured it is never cleared: any
sequence of empty/undefined `setBundlerRpc` calls leaves the very same
transport configured and routed methods still answered by it; and after any
sequence of `setBundlerRpc` calls whatsoever some bundler transport remains
configured. -/
theorem bundler_transport_persists (p : Provider) (b : JsonRpcProviderRef)
    (us : List (Option String)) (hb : p.bundlerRpc = some b)
    (hus : ∀ u ∈ us, u = none ∨ u = some "") :
    (us.foldl setBundlerRpc p).bundlerRpc = some b ∧
      (∀ w method params, bundlerMethods.contains method = true →
        sendTrace (us.foldl setBundlerRpc p) w method params =
          (w.bundler b.url method params, none)) ∧
      (∀ vs : List (Option String),
        ((vs.foldl setBundlerRpc p).bundlerRpc).isSome = true) := by
  have he := foldl_setBundlerRpc_empty us p hus
  refine ⟨by rw [he, hb], fun w method params hm => ?_,
    fun vs => foldl_setBundlerRpc_isSome vs p (by simp [hb])⟩
  rw [he]
  exact sendTrace_routed p w b method params hb hm

/-- C9 witness: after `setBundlerRpc(undefined)` then `setBundlerRpc("")`
the sample bundled client still holds its transport and still routes
`eth_getUserOperationReceipt` to it. -/
theorem bundler_transport_persists_witness :
    sampleBundled.bundlerRpc = some ⟨"http://bundler.example"⟩ ∧
      (∀ u ∈ [none, some ""], u = none ∨ u = (some "" : Option String)) ∧
      (([none, some ""].foldl setBundlerRpc sampleBundled).bundlerRpc =
          some ⟨"http://bundler.example"⟩ ∧
        (∀ w method params, bundlerMethods.contains method = true →
          sendTrace ([none, some ""].foldl setBundlerRpc sampleBundled) w method params =
            (w.bundler "http://bundler.example" method params, none)) ∧
        (∀ vs : List (Option String),
          ((vs.foldl setBundlerRpc sampleBundled).bundlerRpc).isSome = true)) :=
  ⟨rfl, by decide,
    bundler_transport_persists sampleBundled ⟨"http://bundler.example"⟩ [none, some ""]
      rfl (by decide)⟩

/-- C3: on the primary path, a well-formed response body carrying an error
object with a message string and a numeric code makes `send` fail, and the
surfaced failure message contains both the server-supplied message and the
decimal rendering of the code. -/
theorem rpc_error_surfaces_message_and_code (p : Provider) (w : World)
    (method : String) (params : List Json) (body e : Json) (m : String) (c : Int)
    (hr : p.bundlerRpc = none ∨ bundlerMethods.contains method = false)
    (hhttp : w.http (primaryRequest p w.now method params) = HttpResult.ok body)
    (he : body.getField "error" = some e)
    (hm : e.getField "message" = some (Json.str m))
    (hc : e.getField "code" = some (Json.num c)) :
    ∃ msg, send p w method params = Except.error msg ∧
      strContains msg m ∧ strContains msg (toString c) := by
  have ht : jsTruthy e = true := by
    cases e <;> first | rfl | simp [Json.getField] at hm
  have hmsg : rpcErrorMsg e = "RPC Error: " ++ (m ++ (" (Code: " ++ (toString c ++ ")"))) := by
    rw [rpcErrorMsg, hm, hc]
    rfl
  refine ⟨"Unexpected error during RPC request: " ++ ("Error: " ++ rpcErrorMsg e), ?_, ?_, ?_⟩
  · show (sendTrace p w method params).1 = _
    rw [sendTrace_primary p w method params hr]
    simp [primarySend, hhttp, processResponse, he, ht]
  · rw [hmsg]
    exact ⟨("Unexpected error during RPC request: " ++ ("Error: " ++ "RPC Error: ")).data,
      (" (Code: " ++ (toString c ++ ")")).data, by simp [data_append, List.append_assoc]⟩
  · rw [hmsg]
    exact ⟨("Unexpected error during RPC request: " ++
        ("Error: " ++ ("RPC Error: " ++ (m ++ " (Code: ")))).data,
      ")".data, by simp [data_append, List.append_assoc]⟩

/-- C3 witness: the `boom` / `-32000` error body makes the concrete call
fail with a message containing both. -/
theorem rpc_error_surfaces_message_and_code_witness :
    (sampleProvider.bundlerRpc = none ∨ bundlerMethods.contains "eth_chainId" = false) ∧
      ∃ msg, send sampleProvider wRpcErr "eth_chainId" [] = Except.error msg ∧
        strContains msg "boom" ∧ strContains msg (toString (-32000 : Int)) :=
  ⟨Or.inl rfl,
    rpc_error_surfaces_message_and_code sampleProvider wRpcErr "eth_chainId" []
      (Json.obj [("error", Json.obj [("message", Json.str "boom"), ("code", Json.num (-32000))])])
      (Json.obj [("message", Json.str "boom"), ("code", Json.num (-32000))])
      "boom" (-32000) (Or.inl rfl) rfl rfl rfl rfl⟩

/-- C4: on the primary path, a well-formed success body (a result field and
no error field) makes `send` resolve to exactly the result value, unwrapped
from the envelope. -/
theorem result_field_unwrapped (p : Provider) (w : World)
    (method : String) (params : List Json) (body v : Json)
    (hr : p.bundlerRpc = none ∨ bundlerMethods.contains method = false)
    (hhttp : w.http (primaryRequest p w.now method params) = HttpResult.ok body)
    (herr : body.getField "error" = none)
    (hres : body.getField "result" = some v) :
    send p w method params = Except.ok (some v) := by
  show (sendTrace p w method params).1 = _
  rw [sendTrace_primary p w method params hr]
  simp [primarySend, hhttp, processResponse, herr, hres]

/-- C4 witness: the body with result 42 resolves to 42, not the envelope. -/
theorem result_field_unwrapped_witness :
    (sampleProvider.bundlerRpc = none ∨ bundlerMethods.contains "eth_chainId" = false) ∧
      send sampleProvider wResult "eth_chainId" [] = Except.ok (some (Json.num 42)) :=
  ⟨Or.inl rfl,
    result_field_unwrapped sampleProvider wResult "eth_chainId" []
      (Json.obj [("result", Json.num 42)]) (Json.num 42) (Or.inl rfl) rfl rfl rfl⟩

/-- C7: a primary-path transport failure carrying an HTTP status and a
(truthy) partial body surfaces a failure message containing the status, the
attempted method, the stringified params and the stringified body; a
failure carrying no structured information surfaces the generic wrapped
error. -/
theorem transport_failure_diagnostics :
    (∀ (p : Provider) (w : World) (method : String) (params : List Json)
        (n : Nat) (body : Json) (axMsg : String),
      (p.bundlerRpc = none ∨ bundlerMethods.contains method = false) →
      w.http (primaryRequest p w.now method params) =
        HttpResult.httpErr (some n) (some body) axMsg →
      n ≠ 0 → jsTruthy body = true →
      ∃ msg, send p w method params = Except.error msg ∧
        strContains msg (toString n) ∧ strContains msg method ∧
        strContains msg (Json.stringify (Json.arr params)) ∧
        strContains msg (Json.stringify body)) ∧
    (∀ (p : Provider) (w : World) (method : String) (params : List Json) (s : String),
      (p.bundlerRpc = none ∨ bundlerMethods.contains method = false) →
      w.http (primaryRequest p w.now method params) = HttpResult.otherErr s →
      send p w method params =
        Except.error ("Unexpected error during RPC request: " ++ s)) := by
  constructor
  · intro p w method params n body axMsg hr hhttp hn ht
    have hd : responseDataOf (some body) = body := by simp [responseDataOf, ht]
    have hs : statusDisplay (some n) = toString n := by simp [statusDisplay, hn]
    have hmsg : httpErrMsg method params (some n) (some body) axMsg =
        "HTTP " ++ (toString n ++ (" - RPC request failed: " ++
          (errorMessageOf body axMsg ++ ("\nRequest Method: " ++
            (method ++ ("\nRequest Params: " ++
              (Json.stringify (Json.arr params) ++ ("\nResponse Data: " ++
                Json.stringify body)))))))) := by
      rw [httpErrMsg, hd, hs]
    refine ⟨httpErrMsg method params (some n) (some body) axMsg, ?_, ?_, ?_, ?_, ?_⟩
    · show (sendTrace p w method params).1 = _
      rw [sendTrace_primary p w method params hr]
      simp [primarySend, hhttp, processResponse]
    · rw [hmsg]
      exact ⟨"HTTP ".data,
        (" - RPC request failed: " ++ (errorMessageOf body axMsg ++ ("\nRequest Method: " ++
          (method ++ ("\nRequest Params: " ++ (Json.stringify (Json.arr params) ++
            ("\nResponse Data: " ++ Json.stringify body))))))).data,
        by simp [data_append, List.append_assoc]⟩
    · rw [hmsg]
      exact ⟨("HTTP " ++ (toString n ++ (" - RPC request failed: " ++
          (errorMessageOf body axMsg ++ "\nRequest Method: ")))).data,
        ("\nRequest Params: " ++ (Json.stringify (Json.arr params) ++
          ("\nResponse Data: " ++ Json.stringify body))).data,
        by simp [data_append, List.append_assoc]⟩
    · rw [hmsg]
      exact ⟨("HTTP " ++ (toString n ++ (" - RPC request failed: " ++
          (errorMessageOf body axMsg ++ ("\nRequest Method: " ++
            (method ++ "\nRequest Params: ")))))).data,
        ("\nResponse Data: " ++ Json.stringify body).data,
        by simp [data_append, List.append_assoc]⟩
    · rw [hmsg]
      exact ⟨("HTTP " ++ (toString n ++ (" - RPC request failed: " ++
          (errorMessageOf body axMsg ++ ("\nRequest Method: " ++
            (method ++ ("\nRequest Params: " ++ (Json.stringify (Json.arr params) ++
              "\nResponse Data: ")))))))).data,
        ([] : List Char),
        by simp [data_append, List.append_assoc]⟩
  · intro p w method params s hr hhttp
    show (sendTrace p w method params).1 = _
    rw [sendTrace_primary p w method params hr]
    simp [primarySend, hhttp, processResponse]

/-- C7 witness: the concrete HTTP 500 failure surfaces status, method,
params and body, and the concrete non-axios failure surfaces the generic
wrapped error. -/
theorem transport_failure_diagnostics_witness :
    ((sampleProvider.bundlerRpc = none ∨
        bundlerMethods.contains "eth_getBalance" = false) ∧
      (500 : Nat) ≠ 0 ∧ jsTruthy body500 = true ∧
      ∃ msg, send sampleProvider wHttp500 "eth_getBalance" [Json.str "0xabc"] =
          Except.error msg ∧
        strContains msg (toString (500 : Nat)) ∧ strContains msg "eth_getBalance" ∧
        strContains msg (Json.stringify (Json.arr [Json.str "0xabc"])) ∧
        strContains msg (Json.stringify body500)) ∧
      send sampleProvider wOther "eth_getBalance" [] =
        Except.error ("Unexpected error during RPC request: " ++ "Error: socket hang up") :=
  ⟨⟨Or.inl rfl, by decide, rfl,
      transport_failure_diagnostics.1 sampleProvider wHttp500 "eth_getBalance"
        [Json.str "0xabc"] 500 body500 "Request failed with status code 500"
        (Or.inl rfl) rfl (by decide) rfl⟩,
    transport_failure_diagnostics.2 sampleProvider wOther "eth_getBalance" []
      "Error: socket hang up" (Or.inl rfl) rfl⟩

/-- C10 counterexample: the body with a null error field next to a result
field contains both fields, yet `send` succeeds and returns the result — it
does not fail — because the source tests the error field for truthiness,
not presence. -/
theorem error_and_result_both_counterexample :
    Json.getField (Json.obj [("error", Json.null), ("result", Json.num 42)]) "error" =
        some Json.null ∧
      Json.getField (Json.obj [("error", Json.null), ("result", Json.num 42)]) "result" =
        some (Json.num 42) ∧
      wBothNull.http (primaryRequest sampleProvider wBothNull.now "eth_chainId" []) =
        HttpResult.ok (Json.obj [("error", Json.null), ("result", Json.num 42)]) ∧
      send sampleProvider wBothNull "eth_chainId" [] = Except.ok (some (Json.num 42)) ∧
      ∀ msg, send sampleProvider wBothNull "eth_chainId" [] ≠ Except.error msg := by
  refine ⟨rfl, rfl, rfl, rfl, fun msg h => ?_⟩
  rw [show send sampleProvider wBothNull "eth_chainId" [] = Except.ok (some (Json.num 42))
    from rfl] at h
  simp at h

/-- C10 amended: on a primary-path body carrying both an error field and a
result field, when the error value is truthy by JavaScript rules, `send`
fails with the RPC error and never returns the result; the error field is
tested before the result field is read. -/
theorem truthy_error_checked_before_result (p : Provider) (w : World)
    (method : String) (params : List Json) (body e v : Json)
    (hr : p.bundlerRpc = none ∨ bundlerMethods.contains method = false)
    (hhttp : w.http (primaryRequest p w.now method params) = HttpResult.ok body)
    (he : body.getField "error" = some e)
    (_hres : body.getField "result" = some v)
    (ht : jsTruthy e = true) :
    send p w method params =
      Except.error ("Unexpected error during RPC request: " ++ ("Error: " ++ rpcErrorMsg e)) ∧
      ∀ x, send p w method params ≠ Except.ok x := by
  have h1 : send p w method params =
      Except.error ("Unexpected error during RPC request: " ++ ("Error: " ++ rpcErrorMsg e)) := by
    show (sendTrace p w method params).1 = _
    rw [sendTrace_primary p w method params hr]
    simp [primarySend, hhttp, processResponse, he, ht]
  refine ⟨h1, fun x hx => ?_⟩
  rw [h1] at hx
  simp at hx

/-- C10 amended witness: the body with a truthy error object next to a
result field fails with the RPC error and never yields the result. -/
theorem truthy_error_checked_before_result_witness :
    (sampleProvider.bundlerRpc = none ∨ bundlerMethods.contains "eth_chainId" = false) ∧
      jsTruthy (Json.obj [("message", Json.str "bad"), ("code", Json.num 3)]) = true ∧
      (send sampleProvider wBothTruthy "eth_chainId" [] =
        Except.error ("Unexpected error during RPC request: " ++ ("Error: " ++
          rpcErrorMsg (Json.obj [("message", Json.str "bad"), ("code", Json.num 3)]))) ∧
        ∀ x, send sampleProvider wBothTruthy "eth_chainId" [] ≠ Except.ok x) :=
  ⟨Or.inl rfl, rfl,
    truthy_error_checked_before_result sampleProvider wBothTruthy "eth_chainId" []
      (Json.obj [("error", Json.obj [("message", Json.str "bad"), ("code", Json.num 3)]),
        ("result", Json.num 7)])
      (Json.obj [("message", Json.str "bad"), ("code", Json.num 3)])
      (Json.num 7) (Or.inl rfl) rfl rfl rfl rfl⟩

end BundlerRpc
